import Mathlib

/-!
Verification of the QEMU Q35 TSC calibration routine
(`src/q35/timer.rs`, `calibrate_tsc_frequency`).

The hardware is modelled as a pair of streams indexed by the number of
PM-timer port reads performed so far:
* `Env.pm i` is the raw value returned by the i-th `read_pm_timer` port
  read (reduced mod 2^32 at the read site, matching the `u32` register);
* `Env.tsc i` is the value the `rdtsc` instruction would return at the
  instant the i-th port read completes (reduced mod 2^64, matching `u64`).

The two polling loops of the source are bounded by the source's own
`MAX_WAIT_CYCLES` budget, so they are translated as structural recursion
on the remaining budget; the model is total by construction, exactly as
the source terminates by construction.  Rust arithmetic that can trap in
a debug build (underflowing `-`, overflowing `*`, division by zero) is
instrumented: the returned record carries a flag for each potential trap
site, and the numeric `result` field follows wrapping (mod 2^64)
semantics at those sites.
-/

set_option maxHeartbeats 1000000

/-- Hardware environment: the stream of PM-timer port read results and the
stream of TSC values observed at the completion of each port read. -/
structure Env where
  pm : Nat → Nat
  tsc : Nat → Nat

/-- Model of `read_pm_timer`: an x86 `in eax, dx` port read returning a
`u32`.  The `% 2^32` encodes the register width. -/
def read_pm_timer (env : Env) (i : Nat) : Nat :=
  env.pm i % 4294967296

/-- Model of the `_rdtsc` intrinsic at the moment the i-th port read has
completed: a `u64` value. -/
def read_tsc (env : Env) (i : Nat) : Nat :=
  env.tsc i % 18446744073709551616

/-- Model of `u32::wrapping_sub` for arguments below 2^32. -/
def wrapping_sub32 (a b : Nat) : Nat :=
  (a + 4294967296 - b) % 4294967296

/-- Model of wrapping 64-bit subtraction (release-build semantics of
`end_tsc - start_tsc` on `u64`) for arguments below 2^64. -/
def wrapping_sub64 (a b : Nat) : Nat :=
  (a + 18446744073709551616 - b) % 18446744073709551616

/-- Source constant `DEFAULT_ACPI_TIMER_FREQUENCY: u64 = 3_579_545`. -/
def DEFAULT_ACPI_TIMER_FREQUENCY : Nat := 3579545

/-- Source constant `MAX_WAIT_CYCLES: usize = 1_000_000`. -/
def MAX_WAIT_CYCLES : Nat := 1000000

/-- Source constant `TARGET_INTERVAL_SIZE: u64 = 20`. -/
def TARGET_INTERVAL_SIZE : Nat := 20

/-- Source local `target_ticks = (DEFAULT_ACPI_TIMER_FREQUENCY /
TARGET_INTERVAL_SIZE) as u32`; the `% 2^32` encodes the `as u32` cast. -/
def target_ticks : Nat :=
  DEFAULT_ACPI_TIMER_FREQUENCY / TARGET_INTERVAL_SIZE % 4294967296

/-- Budget loaded into `calibration_cycles_left` before the edge-alignment
loop (first `let mut calibration_cycles_left = MAX_WAIT_CYCLES`). -/
def alignLoopBudget : Nat := MAX_WAIT_CYCLES

/-- Budget loaded into `calibration_cycles_left` before the measurement
loop (second `calibration_cycles_left = MAX_WAIT_CYCLES`). -/
def measureLoopBudget : Nat := MAX_WAIT_CYCLES

/-- Outcome of one of the two polling loops: the last port value read, the
index of the last read performed, whether the loop gave up because its
budget reached zero, and whether a `calibration_cycles_left -= 1`
decrement was ever applied to a zero value (the `usize` underflow that
would trap in a debug build; unreachable from `calibrate_tsc_frequency`,
which starts both budgets at 1,000,000). -/
structure LoopOut where
  val : Nat
  idx : Nat
  timeout : Bool
  underflow : Bool

/-- Edge-alignment loop of the source: repeatedly read the PM timer at
successive indices until the value differs from `s` (`next_pm !=
start_pm` breaks), decrementing the budget and giving up (with a logged
warning, modelled by `timeout := true`) when it reaches zero.  The fuel
argument is the current value of `calibration_cycles_left`; the fuel-0
case models entering the loop body with a zero budget, where the
decrement would underflow. -/
def alignLoop (env : Env) (s : Nat) : Nat → Nat → LoopOut
  | 0, j =>
    if read_pm_timer env j = s then
      ⟨read_pm_timer env j, j, true, true⟩
    else
      ⟨read_pm_timer env j, j, false, false⟩
  | c + 1, j =>
    if read_pm_timer env j = s then
      if c = 0 then ⟨read_pm_timer env j, j, true, false⟩
      else alignLoop env s c (j + 1)
    else
      ⟨read_pm_timer env j, j, false, false⟩

/-- Measurement-wait loop of the source: repeatedly read the PM timer and
break as soon as `end_pm.wrapping_sub(start_pm) >= target_ticks`;
decrement the budget and take the fallback return path (`timeout :=
true`, a logged warning in the source) when it reaches zero.  The fuel-0
case models entering the loop body with a zero budget, where the
decrement would underflow. -/
def measureLoop (env : Env) (s : Nat) : Nat → Nat → LoopOut
  | 0, j =>
    if target_ticks ≤ wrapping_sub32 (read_pm_timer env j) s then
      ⟨read_pm_timer env j, j, false, false⟩
    else
      ⟨read_pm_timer env j, j, true, true⟩
  | c + 1, j =>
    if target_ticks ≤ wrapping_sub32 (read_pm_timer env j) s then
      ⟨read_pm_timer env j, j, false, false⟩
    else if c = 0 then ⟨read_pm_timer env j, j, true, false⟩
    else measureLoop env s c (j + 1)

/-- Result of the edge-alignment phase: the source reads `start_pm` at
index 0 and the alignment loop performs its reads from index 1 on. -/
def alignResult (env : Env) : LoopOut :=
  alignLoop env (read_pm_timer env 0) alignLoopBudget 1

/-- Source `start_pm = next_pm` after the alignment loop. -/
def startPmOf (env : Env) : Nat :=
  (alignResult env).val

/-- Source `start_tsc`, read immediately after the alignment loop. -/
def startTscOf (env : Env) : Nat :=
  read_tsc env (alignResult env).idx

/-- Result of the measurement-wait phase, whose reads start right after
the last alignment read. -/
def measureResult (env : Env) : LoopOut :=
  measureLoop env (startPmOf env) measureLoopBudget ((alignResult env).idx + 1)

/-- Source `end_pm` at the exit of the measurement loop. -/
def endPmOf (env : Env) : Nat :=
  (measureResult env).val

/-- Source `end_tsc`, read immediately after the measurement loop. -/
def endTscOf (env : Env) : Nat :=
  read_tsc env (measureResult env).idx

/-- Source `delta_pm = end_pm.wrapping_sub(start_pm) as u64`. -/
def deltaPmOf (env : Env) : Nat :=
  wrapping_sub32 (endPmOf env) (startPmOf env)

/-- Source `delta_time_ns = (delta_pm * 1_000_000_000) /
DEFAULT_ACPI_TIMER_FREQUENCY` in `u64` arithmetic (the `% 2^64` encodes
the 64-bit width of the product; it is provably the identity here). -/
def deltaTimeNsOf (env : Env) : Nat :=
  deltaPmOf env * 1000000000 % 18446744073709551616 / DEFAULT_ACPI_TIMER_FREQUENCY

/-- Source `delta_tsc = end_tsc - start_tsc` with wrapping (release-build)
semantics; a debug build would trap when `end_tsc < start_tsc`. -/
def deltaTscOf (env : Env) : Nat :=
  wrapping_sub64 (endTscOf env) (startTscOf env)

/-- Source `freq_hz = (delta_tsc * 1_000_000_000) / delta_time_ns` in
`u64` arithmetic with wrapping (release-build) semantics for the
product. -/
def freqHzOf (env : Env) : Nat :=
  deltaTscOf env * 1000000000 % 18446744073709551616 / deltaTimeNsOf env

/-- Output of `calibrate_tsc_frequency`, instrumented.  `result` is the
returned `u64` under wrapping semantics.  The Bool fields record: the two
warning logs (`alignTimeout`, `measureTimeout` — the latter is exactly
the fallback return path), the debug-build trap sites (`tscUnderflow`
for `end_tsc - start_tsc`, `mulOverflowPm` and `mulOverflowTsc` for the
two `* 1_000_000_000` products, `divByZero` for the final division, and
`usizeUnderflow` for the two budget decrements).  The read-count fields
record how many port reads each phase performed (`pmReads` counts the
initial read as well). -/
structure CalOut where
  result : Nat
  alignTimeout : Bool
  measureTimeout : Bool
  startPm : Nat
  endPm : Nat
  startTsc : Nat
  endTsc : Nat
  deltaPm : Nat
  deltaTimeNs : Nat
  tscUnderflow : Bool
  mulOverflowPm : Bool
  mulOverflowTsc : Bool
  divByZero : Bool
  usizeUnderflow : Bool
  alignReads : Nat
  measureReads : Nat
  pmReads : Nat

/-- Shallow embedding of `calibrate_tsc_frequency` from
`src/q35/timer.rs`.  The `measureResult .timeout` branch is the source's
early `return DEFAULT_ACPI_TIMER_FREQUENCY`, taken before `end_tsc` is
ever read or any of the final arithmetic runs (hence its trap flags are
all false and its sample fields are placeholders). -/
def calibrate_tsc_frequency (env : Env) : CalOut :=
  if (measureResult env).timeout = true then
    { result := DEFAULT_ACPI_TIMER_FREQUENCY
      alignTimeout := (alignResult env).timeout
      measureTimeout := true
      startPm := startPmOf env
      endPm := endPmOf env
      startTsc := startTscOf env
      endTsc := 0
      deltaPm := 0
      deltaTimeNs := 0
      tscUnderflow := false
      mulOverflowPm := false
      mulOverflowTsc := false
      divByZero := false
      usizeUnderflow := (alignResult env).underflow || (measureResult env).underflow
      alignReads := (alignResult env).idx
      measureReads := (measureResult env).idx - (alignResult env).idx
      pmReads := (measureResult env).idx + 1 }
  else
    { result := freqHzOf env
      alignTimeout := (alignResult env).timeout
      measureTimeout := false
      startPm := startPmOf env
      endPm := endPmOf env
      startTsc := startTscOf env
      endTsc := endTscOf env
      deltaPm := deltaPmOf env
      deltaTimeNs := deltaTimeNsOf env
      tscUnderflow := decide (endTscOf env < startTscOf env)
      mulOverflowPm := decide (18446744073709551616 ≤ deltaPmOf env * 1000000000)
      mulOverflowTsc := decide (18446744073709551616 ≤ deltaTscOf env * 1000000000)
      divByZero := decide (deltaTimeNsOf env = 0)
      usizeUnderflow := (alignResult env).underflow || (measureResult env).underflow
      alignReads := (alignResult env).idx
      measureReads := (measureResult env).idx - (alignResult env).idx
      pmReads := (measureResult env).idx + 1 }

/-- Absence of every debug-build trap instrumented in the model: no
underflowing subtraction, no overflowing multiplication, no division by
zero, no `usize` budget underflow. -/
def NoPanic (o : CalOut) : Prop :=
  o.tscUnderflow = false ∧ o.mulOverflowPm = false ∧ o.mulOverflowTsc = false ∧
  o.divByZero = false ∧ o.usizeUnderflow = false

/-- Modelled from the claim's words (C3): the returned value equals
`(end_cycles − start_cycles) * 1_000_000_000 / elapsed_ns` where
`elapsed_ns = tick_delta * 1_000_000_000 / 3_579_545`, `tick_delta` is
the wrapping 32-bit difference of the PM samples widened to 64 bits, and
all arithmetic is 64-bit unsigned (subtraction and multiplication
modular, divisions truncating). -/
def claimed_result_formula (startPm endPm startTsc endTsc : Nat) : Nat :=
  ((endTsc + 18446744073709551616 - startTsc) % 18446744073709551616)
      * 1000000000 % 18446744073709551616 /
    (((endPm + 4294967296 - startPm) % 4294967296) * 1000000000 / 3579545)

/-- Concrete environment for witnesses: the two counters are derived from a
common read-completion schedule `Tgood` (nanoseconds, one entry per port
read, flat after three reads), the reference counter ticking at
3,579,545 Hz and the cycle counter at 2,000,000,000 Hz. -/
def Tgood : Nat → Nat := fun k => 50000000 * min k 3

/-- Environment realizing the nominal end-to-end scenario. -/
def envGood : Env :=
  ⟨fun k => Tgood k * 3579545 / 1000000000, fun k => 2 * Tgood k⟩

/-- Environment whose PM timer advances normally but whose TSC decreases
between the two samples (start sample 5 at read 1, end sample 3 at
read 2). -/
def envC1 : Env :=
  ⟨fun k => if k = 0 then 0 else if k = 1 then 1 else 178978,
   fun k => if k = 2 then 3 else 5⟩

/-- Environment with completely stuck reference hardware. -/
def envStuck : Env :=
  ⟨fun _ => 0, fun _ => 0⟩

/-- Environment where both counters run at the nominal rates against the
schedule `T k = k` (one port read per nanosecond): the reference counter
moves so little per read that the measurement budget is exhausted. -/
def envFastPoll : Env :=
  ⟨fun k => k * 3579545 / 1000000000, fun k => 2 * k⟩

lemma read_pm_timer_lt (env : Env) (i : Nat) : read_pm_timer env i < 4294967296 :=
  Nat.mod_lt _ (by norm_num)

lemma read_tsc_lt (env : Env) (i : Nat) : read_tsc env i < 18446744073709551616 :=
  Nat.mod_lt _ (by norm_num)

lemma wrapping_sub32_lt (a b : Nat) : wrapping_sub32 a b < 4294967296 :=
  Nat.mod_lt _ (by norm_num)

lemma wrapping_sub32_self (a : Nat) : wrapping_sub32 a a = 0 := by
  unfold wrapping_sub32
  omega

lemma wrapping_sub32_of_le (a b : Nat) (hba : b ≤ a) (ha : a < 4294967296) :
    wrapping_sub32 a b = a - b := by
  unfold wrapping_sub32
  omega

lemma wrapping_sub64_of_le (a b : Nat) (hba : b ≤ a) (ha : a < 18446744073709551616) :
    wrapping_sub64 a b = a - b := by
  unfold wrapping_sub64
  omega

lemma target_ticks_eq : target_ticks = 178977 := by decide

lemma alignLoop_val (env : Env) (s : Nat) :
    ∀ c j, (alignLoop env s c j).val = read_pm_timer env (alignLoop env s c j).idx := by
  intro c
  induction c with
  | zero =>
    intro j
    simp only [alignLoop]
    split <;> rfl
  | succ c ih =>
    intro j
    simp only [alignLoop]
    split
    · split
      · rfl
      · exact ih (j + 1)
    · rfl

lemma alignLoop_idx_ge (env : Env) (s : Nat) :
    ∀ c j, j ≤ (alignLoop env s c j).idx := by
  intro c
  induction c with
  | zero =>
    intro j
    simp only [alignLoop]
    split <;> exact Nat.le_refl j
  | succ c ih =>
    intro j
    simp only [alignLoop]
    split
    · split
      · exact Nat.le_refl j
      · exact Nat.le_trans (Nat.le_succ j) (ih (j + 1))
    · exact Nat.le_refl j

lemma alignLoop_idx_le (env : Env) (s : Nat) :
    ∀ c j, 1 ≤ c → (alignLoop env s c j).idx ≤ j + c - 1 := by
  intro c
  induction c with
  | zero => intro j h; omega
  | succ c ih =>
    intro j _
    simp only [alignLoop]
    split
    · split
      · simp
      · rename_i hc
        have h1 : 1 ≤ c := Nat.one_le_iff_ne_zero.mpr hc
        have := ih (j + 1) h1
        omega
    · simp

lemma alignLoop_underflow (env : Env) (s : Nat) :
    ∀ c j, 1 ≤ c → (alignLoop env s c j).underflow = false := by
  intro c
  induction c with
  | zero => intro j h; omega
  | succ c ih =>
    intro j _
    simp only [alignLoop]
    split
    · split
      · rfl
      · rename_i hc
        exact ih (j + 1) (Nat.one_le_iff_ne_zero.mpr hc)
    · rfl

lemma alignLoop_timeout_idx (env : Env) (s : Nat) :
    ∀ c j, 1 ≤ c → (alignLoop env s c j).timeout = true →
      (alignLoop env s c j).idx = j + c - 1 := by
  intro c
  induction c with
  | zero => intro j h; omega
  | succ c ih =>
    intro j _ ht
    simp only [alignLoop] at ht ⊢
    split
    · rename_i hread
      split
      · rename_i hc
        subst hc
        simp
      · rename_i hc
        have h1 : 1 ≤ c := Nat.one_le_iff_ne_zero.mpr hc
        rw [if_pos hread, if_neg hc] at ht
        have := ih (j + 1) h1 ht
        omega
    · rename_i hread
      rw [if_neg hread] at ht
      simp at ht

lemma alignLoop_const (env : Env) (s : Nat) (H : ∀ k, read_pm_timer env k = s) :
    ∀ c j, 1 ≤ c → alignLoop env s c j = ⟨s, j + c - 1, true, false⟩ := by
  intro c
  induction c with
  | zero => intro j h; omega
  | succ c ih =>
    intro j _
    simp only [alignLoop]
    rw [if_pos (H j)]
    by_cases hc : c = 0
    · subst hc
      rw [if_pos rfl, H j]
      simp
    · rw [if_neg hc]
      have h1 : 1 ≤ c := Nat.one_le_iff_ne_zero.mpr hc
      rw [ih (j + 1) h1]
      congr 1
      omega

lemma alignLoop_exit (env : Env) (s : Nat) :
    ∀ c j k, j ≤ k → k - j < c →
      (∀ i, j ≤ i → i < k → read_pm_timer env i = s) →
      read_pm_timer env k ≠ s →
      alignLoop env s c j = ⟨read_pm_timer env k, k, false, false⟩ := by
  intro c
  induction c with
  | zero => intro j k h1 h2; omega
  | succ c ih =>
    intro j k hjk hc hall hk
    simp only [alignLoop]
    by_cases hjeqk : j = k
    · subst hjeqk
      rw [if_neg hk]
    · have hjk' : j < k := Nat.lt_of_le_of_ne hjk hjeqk
      rw [if_pos (hall j (Nat.le_refl j) hjk')]
      have hc0 : c ≠ 0 := by omega
      rw [if_neg hc0]
      exact ih (j + 1) k hjk' (by omega) (fun i hi1 hi2 => hall i (by omega) hi2) hk

lemma measureLoop_val (env : Env) (s : Nat) :
    ∀ c j, (measureLoop env s c j).val = read_pm_timer env (measureLoop env s c j).idx := by
  intro c
  induction c with
  | zero =>
    intro j
    simp only [measureLoop]
    split <;> rfl
  | succ c ih =>
    intro j
    simp only [measureLoop]
    split
    · rfl
    · split
      · rfl
      · exact ih (j + 1)

lemma measureLoop_idx_ge (env : Env) (s : Nat) :
    ∀ c j, j ≤ (measureLoop env s c j).idx := by
  intro c
  induction c with
  | zero =>
    intro j
    simp only [measureLoop]
    split <;> exact Nat.le_refl j
  | succ c ih =>
    intro j
    simp only [measureLoop]
    split
    · exact Nat.le_refl j
    · split
      · exact Nat.le_refl j
      · exact Nat.le_trans (Nat.le_succ j) (ih (j + 1))

lemma measureLoop_idx_le (env : Env) (s : Nat) :
    ∀ c j, 1 ≤ c → (measureLoop env s c j).idx ≤ j + c - 1 := by
  intro c
  induction c with
  | zero => intro j h; omega
  | succ c ih =>
    intro j _
    simp only [measureLoop]
    split
    · simp
    · split
      · simp
      · rename_i hcond hc
        have h1 : 1 ≤ c := Nat.one_le_iff_ne_zero.mpr hc
        have := ih (j + 1) h1
        omega

lemma measureLoop_underflow (env : Env) (s : Nat) :
    ∀ c j, 1 ≤ c → (measureLoop env s c j).underflow = false := by
  intro c
  induction c with
  | zero => intro j h; omega
  | succ c ih =>
    intro j _
    simp only [measureLoop]
    split
    · rfl
    · split
      · rfl
      · rename_i hcond hc
        exact ih (j + 1) (Nat.one_le_iff_ne_zero.mpr hc)

lemma measureLoop_target (env : Env) (s : Nat) :
    ∀ c j, (measureLoop env s c j).timeout = false →
      target_ticks ≤ wrapping_sub32 (measureLoop env s c j).val s := by
  intro c
  induction c with
  | zero =>
    intro j ht
    simp only [measureLoop] at ht ⊢
    split
    · rename_i hcond
      exact hcond
    · rename_i hcond
      rw [if_neg hcond] at ht
      simp at ht
  | succ c ih =>
    intro j ht
    simp only [measureLoop] at ht ⊢
    split
    · rename_i hcond
      exact hcond
    · rename_i hcond
      rw [if_neg hcond] at ht
      split
      · rename_i hc
        rw [if_pos hc] at ht
        simp at ht
      · rename_i hc
        rw [if_neg hc] at ht
        exact ih (j + 1) ht

lemma measureLoop_all_small (env : Env) (s : Nat) :
    ∀ c j, 1 ≤ c →
      (∀ i, j ≤ i → i < j + c → wrapping_sub32 (read_pm_timer env i) s < target_ticks) →
      measureLoop env s c j =
        ⟨read_pm_timer env (j + c - 1), j + c - 1, true, false⟩ := by
  intro c
  induction c with
  | zero => intro j h; omega
  | succ c ih =>
    intro j _ H
    simp only [measureLoop]
    rw [if_neg (Nat.not_le_of_lt (H j (Nat.le_refl j) (by omega)))]
    by_cases hc : c = 0
    · subst hc
      rw [if_pos rfl]
      simp
    · rw [if_neg hc]
      have h1 : 1 ≤ c := Nat.one_le_iff_ne_zero.mpr hc
      rw [ih (j + 1) h1 (fun i hi1 hi2 => H i (by omega) (by omega))]
      have he : j + 1 + c - 1 = j + (c + 1) - 1 := by omega
      rw [he]

lemma calibrate_measureTimeout (env : Env) :
    (calibrate_tsc_frequency env).measureTimeout = (measureResult env).timeout := by
  unfold calibrate_tsc_frequency
  split
  · rename_i h
    simp [h]
  · rename_i h
    simp at h
    simp [h]

lemma calibrate_alignTimeout (env : Env) :
    (calibrate_tsc_frequency env).alignTimeout = (alignResult env).timeout := by
  unfold calibrate_tsc_frequency
  split <;> rfl

lemma calibrate_startPm (env : Env) :
    (calibrate_tsc_frequency env).startPm = startPmOf env := by
  unfold calibrate_tsc_frequency
  split <;> rfl

lemma calibrate_startTsc (env : Env) :
    (calibrate_tsc_frequency env).startTsc = startTscOf env := by
  unfold calibrate_tsc_frequency
  split <;> rfl

lemma calibrate_usizeUnderflow (env : Env) :
    (calibrate_tsc_frequency env).usizeUnderflow =
      ((alignResult env).underflow || (measureResult env).underflow) := by
  unfold calibrate_tsc_frequency
  split <;> rfl

lemma calibrate_alignReads (env : Env) :
    (calibrate_tsc_frequency env).alignReads = (alignResult env).idx := by
  unfold calibrate_tsc_frequency
  split <;> rfl

lemma calibrate_measureReads (env : Env) :
    (calibrate_tsc_frequency env).measureReads =
      (measureResult env).idx - (alignResult env).idx := by
  unfold calibrate_tsc_frequency
  split <;> rfl

lemma calibrate_pmReads (env : Env) :
    (calibrate_tsc_frequency env).pmReads = (measureResult env).idx + 1 := by
  unfold calibrate_tsc_frequency
  split <;> rfl

lemma calibrate_of_timeout (env : Env) (h : (measureResult env).timeout = true) :
    calibrate_tsc_frequency env =
      { result := DEFAULT_ACPI_TIMER_FREQUENCY
        alignTimeout := (alignResult env).timeout
        measureTimeout := true
        startPm := startPmOf env
        endPm := endPmOf env
        startTsc := startTscOf env
        endTsc := 0
        deltaPm := 0
        deltaTimeNs := 0
        tscUnderflow := false
        mulOverflowPm := false
        mulOverflowTsc := false
        divByZero := false
        usizeUnderflow := (alignResult env).underflow || (measureResult env).underflow
        alignReads := (alignResult env).idx
        measureReads := (measureResult env).idx - (alignResult env).idx
        pmReads := (measureResult env).idx + 1 } := by
  unfold calibrate_tsc_frequency
  rw [if_pos h]

lemma calibrate_of_success (env : Env) (h : (measureResult env).timeout = false) :
    calibrate_tsc_frequency env =
      { result := freqHzOf env
        alignTimeout := (alignResult env).timeout
        measureTimeout := false
        startPm := startPmOf env
        endPm := endPmOf env
        startTsc := startTscOf env
        endTsc := endTscOf env
        deltaPm := deltaPmOf env
        deltaTimeNs := deltaTimeNsOf env
        tscUnderflow := decide (endTscOf env < startTscOf env)
        mulOverflowPm := decide (18446744073709551616 ≤ deltaPmOf env * 1000000000)
        mulOverflowTsc := decide (18446744073709551616 ≤ deltaTscOf env * 1000000000)
        divByZero := decide (deltaTimeNsOf env = 0)
        usizeUnderflow := (alignResult env).underflow || (measureResult env).underflow
        alignReads := (alignResult env).idx
        measureReads := (measureResult env).idx - (alignResult env).idx
        pmReads := (measureResult env).idx + 1 } := by
  unfold calibrate_tsc_frequency
  rw [if_neg (by simp [h])]

lemma startPmOf_eq (env : Env) :
    startPmOf env = read_pm_timer env (alignResult env).idx := by
  unfold startPmOf alignResult
  exact alignLoop_val env (read_pm_timer env 0) alignLoopBudget 1

lemma endPmOf_eq (env : Env) :
    endPmOf env = read_pm_timer env (measureResult env).idx := by
  unfold endPmOf measureResult
  exact measureLoop_val env (startPmOf env) measureLoopBudget ((alignResult env).idx + 1)

lemma alignResult_idx_ge (env : Env) : 1 ≤ (alignResult env).idx := by
  unfold alignResult
  exact alignLoop_idx_ge env (read_pm_timer env 0) alignLoopBudget 1

lemma alignResult_idx_le (env : Env) : (alignResult env).idx ≤ MAX_WAIT_CYCLES := by
  have := alignLoop_idx_le env (read_pm_timer env 0) alignLoopBudget 1 (by norm_num [alignLoopBudget, MAX_WAIT_CYCLES])
  unfold alignResult
  unfold alignLoopBudget at this ⊢
  omega

lemma measureResult_idx_ge (env : Env) :
    (alignResult env).idx + 1 ≤ (measureResult env).idx := by
  unfold measureResult
  exact measureLoop_idx_ge env (startPmOf env) measureLoopBudget ((alignResult env).idx + 1)

lemma measureResult_idx_le (env : Env) :
    (measureResult env).idx ≤ (alignResult env).idx + MAX_WAIT_CYCLES := by
  have := measureLoop_idx_le env (startPmOf env) measureLoopBudget ((alignResult env).idx + 1)
    (by norm_num [measureLoopBudget, MAX_WAIT_CYCLES])
  unfold measureResult
  unfold measureLoopBudget at this ⊢
  omega

lemma measureResult_target (env : Env) (h : (measureResult env).timeout = false) :
    target_ticks ≤ deltaPmOf env := by
  have := measureLoop_target env (startPmOf env) measureLoopBudget ((alignResult env).idx + 1)
    (by unfold measureResult at h; exact h)
  unfold deltaPmOf endPmOf measureResult
  exact this

lemma calibrate_underflow_false (env : Env) :
    (calibrate_tsc_frequency env).usizeUnderflow = false := by
  rw [calibrate_usizeUnderflow]
  have h1 : (alignResult env).underflow = false := by
    unfold alignResult
    exact alignLoop_underflow env (read_pm_timer env 0) alignLoopBudget 1
      (by norm_num [alignLoopBudget, MAX_WAIT_CYCLES])
  have h2 : (measureResult env).underflow = false := by
    unfold measureResult
    exact measureLoop_underflow env (startPmOf env) measureLoopBudget ((alignResult env).idx + 1)
      (by norm_num [measureLoopBudget, MAX_WAIT_CYCLES])
  rw [h1, h2]
  rfl

lemma deltaTimeNs_lower (env : Env) (h : (measureResult env).timeout = false) :
    49999930 ≤ deltaTimeNsOf env := by
  have htgt : 178977 ≤ deltaPmOf env := by
    have := measureResult_target env h
    rwa [target_ticks_eq] at this
  have hlt : deltaPmOf env < 4294967296 := wrapping_sub32_lt _ _
  have hnooverflow : deltaPmOf env * 1000000000 < 18446744073709551616 := by
    have : deltaPmOf env * 1000000000 ≤ 4294967295 * 1000000000 :=
      Nat.mul_le_mul_right _ (by omega)
    omega
  unfold deltaTimeNsOf
  rw [Nat.mod_eq_of_lt hnooverflow]
  rw [Nat.le_div_iff_mul_le (by norm_num [DEFAULT_ACPI_TIMER_FREQUENCY])]
  unfold DEFAULT_ACPI_TIMER_FREQUENCY
  have : 178977 * 1000000000 ≤ deltaPmOf env * 1000000000 :=
    Nat.mul_le_mul_right _ htgt
  omega

/-- Claim C4: for every pair of 32-bit reference-tick samples taken
`total` true ticks apart on a monotonically increasing, mod-2^32
wrapping counter, the routine's wrapping subtraction recovers `total`
exactly whenever `total < 2^32`, including across a wraparound
boundary. -/
theorem claim4_theorem (start total : Nat) (h1 : start < 4294967296)
    (h2 : total < 4294967296) :
    wrapping_sub32 ((start + total) % 4294967296) start = total := by
  unfold wrapping_sub32
  omega

/-- Witness for C4 at the claim's boundary instance: start = 0xFFFFFFF0
and 0x20 elapsed ticks give the wrapped end sample 0x00000010 and a
recovered delta of 0x20. -/
theorem claim4_witness :
    wrapping_sub32 ((4294967280 + 32) % 4294967296) 4294967280 = 32 ∧
    (4294967280 + 32) % 4294967296 = 16 :=
  ⟨claim4_theorem 4294967280 32 (by norm_num) (by norm_num), by norm_num⟩

/-- Claim C5: the target tick count is the reference frequency constant
integer-divided by the fixed divisor 20 and narrowed to 32 bits, which
for 3,579,545 is exactly 178,977. -/
theorem claim5_theorem :
    target_ticks = DEFAULT_ACPI_TIMER_FREQUENCY / TARGET_INTERVAL_SIZE % 4294967296 ∧
    TARGET_INTERVAL_SIZE = 20 ∧ target_ticks = 178977 :=
  ⟨rfl, rfl, target_ticks_eq⟩

/-- Claim C8, counterexample to the claim as stated: the measurement-wait
loop's budget is not distinct from the edge-alignment loop's budget —
both loops re-initialize `calibration_cycles_left` from the single
constant `MAX_WAIT_CYCLES`, so the two bounds are equal (1,000,000). -/
theorem claim8_counterexample :
    measureLoopBudget = alignLoopBudget ∧ alignLoopBudget = 1000000 ∧
    measureLoopBudget = 1000000 :=
  ⟨rfl, rfl, rfl⟩

/-- Claim C8 (amended): each of the two polling loops has its own fixed
iteration bound — a freshly re-initialized budget of `MAX_WAIT_CYCLES`
iterations per loop, the same constant for both rather than a distinct
one — and the total number of port reads decomposes accordingly. -/
theorem claim8_theorem (env : Env) :
    (calibrate_tsc_frequency env).alignReads ≤ alignLoopBudget ∧
    (calibrate_tsc_frequency env).measureReads ≤ measureLoopBudget ∧
    (calibrate_tsc_frequency env).pmReads =
      1 + (calibrate_tsc_frequency env).alignReads +
        (calibrate_tsc_frequency env).measureReads := by
  rw [calibrate_alignReads, calibrate_measureReads, calibrate_pmReads]
  have h1 := alignResult_idx_le env
  have h2 := measureResult_idx_le env
  have h3 := measureResult_idx_ge env
  have h4 := alignResult_idx_ge env
  unfold alignLoopBudget measureLoopBudget MAX_WAIT_CYCLES at *
  omega

/-- Claim C10: in both polling loops the budget counter starts at
1,000,000 and is tested against zero immediately after every decrement,
so the decrement is never applied to a zero value in either loop (the
instrumented underflow flag of each loop, and of the whole call, is
never set). -/
theorem claim10_theorem (env : Env) :
    (alignResult env).underflow = false ∧
    (measureResult env).underflow = false ∧
    (calibrate_tsc_frequency env).usizeUnderflow = false := by
  refine ⟨?_, ?_, calibrate_underflow_false env⟩
  · unfold alignResult
    exact alignLoop_underflow env (read_pm_timer env 0) alignLoopBudget 1
      (by norm_num [alignLoopBudget, MAX_WAIT_CYCLES])
  · unfold measureResult
    exact measureLoop_underflow env (startPmOf env) measureLoopBudget
      ((alignResult env).idx + 1) (by norm_num [measureLoopBudget, MAX_WAIT_CYCLES])

/-- Claim C9: on every non-fallback return path the PM tick delta has
reached the target tick count 178,977, hence the elapsed-nanosecond
divisor is at least 49,999,930, strictly positive, and the final
division can never be a division by zero. -/
theorem claim9_theorem (env : Env)
    (h : (calibrate_tsc_frequency env).measureTimeout = false) :
    178977 ≤ (calibrate_tsc_frequency env).deltaPm ∧
    49999930 ≤ (calibrate_tsc_frequency env).deltaTimeNs ∧
    0 < (calibrate_tsc_frequency env).deltaTimeNs ∧
    (calibrate_tsc_frequency env).divByZero = false := by
  rw [calibrate_measureTimeout] at h
  rw [calibrate_of_success env h]
  have h1 : 178977 ≤ deltaPmOf env := by
    have := measureResult_target env h
    rwa [target_ticks_eq] at this
  have h2 : 49999930 ≤ deltaTimeNsOf env := deltaTimeNs_lower env h
  refine ⟨h1, h2, ?_, ?_⟩
  · show 0 < deltaTimeNsOf env
    omega
  · show decide (deltaTimeNsOf env = 0) = false
    simp only [decide_eq_false_iff_not]
    omega

/-- Witness for C9 on the nominal synthetic environment. -/
theorem claim9_witness :
    178977 ≤ (calibrate_tsc_frequency envGood).deltaPm ∧
    49999930 ≤ (calibrate_tsc_frequency envGood).deltaTimeNs ∧
    0 < (calibrate_tsc_frequency envGood).deltaTimeNs ∧
    (calibrate_tsc_frequency envGood).divByZero = false :=
  claim9_theorem envGood (by decide)

/-- Claim C3: on the non-fallback return path the returned value equals
the claim's formula — 64-bit unsigned arithmetic over the wrapping
32-bit tick delta, `elapsed_ns = tick_delta * 1e9 / 3_579_545`, and
truncating divisions. -/
theorem claim3_theorem (env : Env)
    (h : (calibrate_tsc_frequency env).measureTimeout = false) :
    (calibrate_tsc_frequency env).result =
      claimed_result_formula (calibrate_tsc_frequency env).startPm
        (calibrate_tsc_frequency env).endPm
        (calibrate_tsc_frequency env).startTsc
        (calibrate_tsc_frequency env).endTsc := by
  rw [calibrate_measureTimeout] at h
  rw [calibrate_of_success env h]
  show freqHzOf env =
    claimed_result_formula (startPmOf env) (endPmOf env) (startTscOf env) (endTscOf env)
  unfold freqHzOf claimed_result_formula deltaTscOf wrapping_sub64 deltaTimeNsOf
    deltaPmOf wrapping_sub32 DEFAULT_ACPI_TIMER_FREQUENCY
  have hlt : (endPmOf env + 4294967296 - startPmOf env) % 4294967296 * 1000000000 <
      18446744073709551616 := by
    have h1 : (endPmOf env + 4294967296 - startPmOf env) % 4294967296 < 4294967296 :=
      Nat.mod_lt _ (by norm_num)
    have h2 := Nat.mul_le_mul_right 1000000000
      (show (endPmOf env + 4294967296 - startPmOf env) % 4294967296 ≤ 4294967295 by omega)
    omega
  rw [Nat.mod_eq_of_lt hlt]

/-- Witness for C3 on the nominal synthetic environment. -/
theorem claim3_witness :
    (calibrate_tsc_frequency envGood).result =
      claimed_result_formula (calibrate_tsc_frequency envGood).startPm
        (calibrate_tsc_frequency envGood).endPm
        (calibrate_tsc_frequency envGood).startTsc
        (calibrate_tsc_frequency envGood).endTsc :=
  claim3_theorem envGood (by decide)

lemma stuck_align (env : Env) (H : ∀ k, env.pm k = env.pm 0) :
    alignResult env = ⟨read_pm_timer env 0, 1000000, true, false⟩ := by
  have Hr : ∀ k, read_pm_timer env k = read_pm_timer env 0 := fun k => by
    unfold read_pm_timer
    rw [H k]
  unfold alignResult
  rw [alignLoop_const env (read_pm_timer env 0) Hr alignLoopBudget 1
    (by norm_num [alignLoopBudget, MAX_WAIT_CYCLES])]
  norm_num [alignLoopBudget, MAX_WAIT_CYCLES]

lemma stuck_measure (env : Env) (H : ∀ k, env.pm k = env.pm 0) :
    measureResult env = ⟨read_pm_timer env 0, 2000000, true, false⟩ := by
  have Hr : ∀ k, read_pm_timer env k = read_pm_timer env 0 := fun k => by
    unfold read_pm_timer
    rw [H k]
  have hs : startPmOf env = read_pm_timer env 0 := by
    unfold startPmOf
    rw [stuck_align env H]
  have hsmall : ∀ i, (alignResult env).idx + 1 ≤ i →
      i < (alignResult env).idx + 1 + measureLoopBudget →
      wrapping_sub32 (read_pm_timer env i) (startPmOf env) < target_ticks := by
    intro i _ _
    rw [hs, Hr i, wrapping_sub32_self, target_ticks_eq]
    norm_num
  unfold measureResult
  rw [measureLoop_all_small env (startPmOf env) measureLoopBudget
    ((alignResult env).idx + 1) (by norm_num [measureLoopBudget, MAX_WAIT_CYCLES]) hsmall]
  rw [stuck_align env H]
  norm_num [measureLoopBudget, MAX_WAIT_CYCLES]
  exact Hr 2000000

/-- Claim C2: if every PM-timer read returns the same value, calibration
terminates after exactly the two configured iteration budgets (1,000,000
reads per loop, plus the initial sample) and returns exactly the
fallback constant 3,579,545, via the fallback (measurement-timeout)
path. -/
theorem claim2_theorem (env : Env) (H : ∀ k, env.pm k = env.pm 0) :
    (calibrate_tsc_frequency env).result = DEFAULT_ACPI_TIMER_FREQUENCY ∧
    (calibrate_tsc_frequency env).result = 3579545 ∧
    (calibrate_tsc_frequency env).measureTimeout = true ∧
    (calibrate_tsc_frequency env).pmReads = 1 + MAX_WAIT_CYCLES + MAX_WAIT_CYCLES := by
  have hm := stuck_measure env H
  rw [calibrate_of_timeout env (by rw [hm])]
  refine ⟨rfl, rfl, rfl, ?_⟩
  show (measureResult env).idx + 1 = 1 + MAX_WAIT_CYCLES + MAX_WAIT_CYCLES
  rw [hm]
  norm_num [MAX_WAIT_CYCLES]

/-- Witness for C2 on the concrete stuck environment. -/
theorem claim2_witness :
    (calibrate_tsc_frequency envStuck).result = DEFAULT_ACPI_TIMER_FREQUENCY ∧
    (calibrate_tsc_frequency envStuck).result = 3579545 ∧
    (calibrate_tsc_frequency envStuck).measureTimeout = true ∧
    (calibrate_tsc_frequency envStuck).pmReads = 1 + MAX_WAIT_CYCLES + MAX_WAIT_CYCLES :=
  claim2_theorem envStuck (fun _ => rfl)

/-- Claim C7: when the edge-alignment loop exhausts its budget without
seeing the reference value change, calibration still proceeds to the
measurement phase, using the sample of the last alignment read (read
index `MAX_WAIT_CYCLES`) as the window start and sampling the TSC right
there; and whenever the measurement phase then completes, the returned
value is the measured frequency, not the fallback — alignment failure
alone never selects the fallback return. -/
theorem claim7_theorem (env : Env)
    (h : (calibrate_tsc_frequency env).alignTimeout = true) :
    (calibrate_tsc_frequency env).startPm = read_pm_timer env MAX_WAIT_CYCLES ∧
    (calibrate_tsc_frequency env).startTsc = read_tsc env MAX_WAIT_CYCLES ∧
    ((calibrate_tsc_frequency env).measureTimeout = false →
      (calibrate_tsc_frequency env).result = freqHzOf env) := by
  rw [calibrate_alignTimeout] at h
  have hidx : (alignResult env).idx = MAX_WAIT_CYCLES := by
    unfold alignResult at h ⊢
    have := alignLoop_timeout_idx env (read_pm_timer env 0) alignLoopBudget 1
      (by norm_num [alignLoopBudget, MAX_WAIT_CYCLES]) h
    rw [this]
    unfold alignLoopBudget
    omega
  refine ⟨?_, ?_, ?_⟩
  · rw [calibrate_startPm, startPmOf_eq, hidx]
  · rw [calibrate_startTsc]
    unfold startTscOf
    rw [hidx]
  · intro hmt
    rw [calibrate_measureTimeout] at hmt
    rw [calibrate_of_success env hmt]

/-- Witness for C7 on the stuck environment, whose alignment loop times
out. -/
theorem claim7_witness :
    (calibrate_tsc_frequency envStuck).startPm = read_pm_timer envStuck MAX_WAIT_CYCLES ∧
    (calibrate_tsc_frequency envStuck).startTsc = read_tsc envStuck MAX_WAIT_CYCLES ∧
    ((calibrate_tsc_frequency envStuck).measureTimeout = false →
      (calibrate_tsc_frequency envStuck).result = freqHzOf envStuck) :=
  claim7_theorem envStuck
    (by rw [calibrate_alignTimeout, stuck_align envStuck (fun _ => rfl)])

/-- Claim C1, counterexample to the claim as stated: for a reference
timer that advances normally but a TSC sample pair with `end_tsc <
start_tsc` (which "every pair of TSC samples" includes), the subtraction
`end_tsc - start_tsc` underflows, so the routine is not free of
arithmetic traps for every pair of TSC samples. -/
theorem claim1_counterexample :
    (calibrate_tsc_frequency envC1).tscUnderflow = true ∧
    ¬ NoPanic (calibrate_tsc_frequency envC1) := by
  have h : (calibrate_tsc_frequency envC1).tscUnderflow = true := by decide
  exact ⟨h, fun hp => Bool.false_ne_true (hp.1 ▸ h)⟩

/-- Claim C1 (amended): for every behavior of the reference timer and
every TSC behavior that is nondecreasing over the call and advances by
at most 18,446,744,073 (= 2^64 / 10^9) cycles between any two reads, the
routine is total: it terminates (the model is structurally recursive on
the source's own loop budgets), suffers no arithmetic trap — no
underflow, no overflow, no usize-budget underflow, no division by zero —
and returns a frequency value below 2^64. -/
theorem claim1_theorem (env : Env)
    (Hmono : ∀ i j, i ≤ j → read_tsc env i ≤ read_tsc env j)
    (Hbound : ∀ i j, read_tsc env j - read_tsc env i ≤ 18446744073) :
    NoPanic (calibrate_tsc_frequency env) ∧
    (calibrate_tsc_frequency env).result < 18446744073709551616 := by
  have husize : (calibrate_tsc_frequency env).usizeUnderflow = false :=
    calibrate_underflow_false env
  by_cases hmt : (measureResult env).timeout = true
  · rw [calibrate_of_timeout env hmt] at husize ⊢
    exact ⟨⟨rfl, rfl, rfl, rfl, husize⟩, by norm_num [DEFAULT_ACPI_TIMER_FREQUENCY]⟩
  · have hmt' : (measureResult env).timeout = false := by
      cases hval : (measureResult env).timeout
      · rfl
      · exact absurd hval hmt
    rw [calibrate_of_success env hmt'] at husize ⊢
    have hij : (alignResult env).idx ≤ (measureResult env).idx := by
      have := measureResult_idx_ge env
      omega
    have hts : startTscOf env ≤ endTscOf env := Hmono _ _ hij
    have htb : endTscOf env - startTscOf env ≤ 18446744073 := Hbound _ _
    have hend : endTscOf env < 18446744073709551616 := read_tsc_lt env _
    have hdtsc : deltaTscOf env = endTscOf env - startTscOf env := by
      unfold deltaTscOf
      exact wrapping_sub64_of_le _ _ hts hend
    have hdtimens : 49999930 ≤ deltaTimeNsOf env := deltaTimeNs_lower env hmt'
    have hdpm : deltaPmOf env < 4294967296 := wrapping_sub32_lt _ _
    refine ⟨⟨?_, ?_, ?_, ?_, husize⟩, ?_⟩
    · show decide (endTscOf env < startTscOf env) = false
      simp only [decide_eq_false_iff_not]
      omega
    · show decide (18446744073709551616 ≤ deltaPmOf env * 1000000000) = false
      simp only [decide_eq_false_iff_not]
      have := Nat.mul_le_mul_right 1000000000 (show deltaPmOf env ≤ 4294967295 by omega)
      omega
    · show decide (18446744073709551616 ≤ deltaTscOf env * 1000000000) = false
      simp only [decide_eq_false_iff_not]
      have := Nat.mul_le_mul_right 1000000000
        (show deltaTscOf env ≤ 18446744073 by omega)
      omega
    · show decide (deltaTimeNsOf env = 0) = false
      simp only [decide_eq_false_iff_not]
      omega
    · show freqHzOf env < 18446744073709551616
      unfold freqHzOf
      calc deltaTscOf env * 1000000000 % 18446744073709551616 / deltaTimeNsOf env
          ≤ deltaTscOf env * 1000000000 % 18446744073709551616 := Nat.div_le_self _ _
        _ < 18446744073709551616 := Nat.mod_lt _ (by norm_num)

/-- Witness for the amended C1 on the stuck environment (its TSC stream
is constantly zero, hence nondecreasing and bounded). -/
theorem claim1_witness :
    NoPanic (calibrate_tsc_frequency envStuck) ∧
    (calibrate_tsc_frequency envStuck).result < 18446744073709551616 :=
  claim1_theorem envStuck (fun _ j _ => Nat.zero_le (read_tsc envStuck j))
    (fun _ _ => Nat.zero_le 18446744073)

lemma tsc_ratio_bounds (A B : Nat) (hAB : A ≤ B)
    (htgt : 178977 ≤ B * 3579545 / 1000000000 - A * 3579545 / 1000000000) :
    1980000000 ≤ (2 * B - 2 * A) * 1000000000 /
        ((B * 3579545 / 1000000000 - A * 3579545 / 1000000000) * 1000000000 / 3579545) ∧
    (2 * B - 2 * A) * 1000000000 /
        ((B * 3579545 / 1000000000 - A * 3579545 / 1000000000) * 1000000000 / 3579545) ≤
      2020000000 := by
  have hN0 : 0 < (B * 3579545 / 1000000000 - A * 3579545 / 1000000000) * 1000000000 / 3579545 := by
    omega
  constructor
  · rw [Nat.le_div_iff_mul_le hN0]
    omega
  · have h2 : (2 * B - 2 * A) * 1000000000 /
        ((B * 3579545 / 1000000000 - A * 3579545 / 1000000000) * 1000000000 / 3579545) <
          2020000001 := by
      rw [Nat.div_lt_iff_lt_mul hN0]
      omega
    omega

/-- Claim C6 (amended): for synthetic inputs in which both counters are
derived from a common nondecreasing read-completion schedule `T` (in
nanoseconds, bounded by one second so that neither counter wraps during
the run), the reference counter ticking at 3,579,545 Hz and the cycle
counter at 2,000,000,000 Hz, whenever the measurement window completes
(the fallback path is not taken) the returned value is within ±1% of
2,000,000,000. -/
theorem claim6_theorem (T : Nat → Nat) (env : Env)
    (Hpm : ∀ k, env.pm k = T k * 3579545 / 1000000000)
    (Htsc : ∀ k, env.tsc k = 2 * T k)
    (Hmono : ∀ i j, i ≤ j → T i ≤ T j)
    (Hcap : ∀ k, T k ≤ 1000000000)
    (h : (calibrate_tsc_frequency env).measureTimeout = false) :
    1980000000 ≤ (calibrate_tsc_frequency env).result ∧
    (calibrate_tsc_frequency env).result ≤ 2020000000 := by
  rw [calibrate_measureTimeout] at h
  rw [calibrate_of_success env h]
  show 1980000000 ≤ freqHzOf env ∧ freqHzOf env ≤ 2020000000
  have hjle : (alignResult env).idx ≤ (measureResult env).idx := by
    have := measureResult_idx_ge env
    omega
  have hT : T (alignResult env).idx ≤ T (measureResult env).idx := Hmono _ _ hjle
  have hpm : ∀ k, read_pm_timer env k = T k * 3579545 / 1000000000 := by
    intro k
    unfold read_pm_timer
    rw [Hpm k]
    apply Nat.mod_eq_of_lt
    have h1 : T k * 3579545 ≤ 1000000000 * 3579545 := Nat.mul_le_mul_right _ (Hcap k)
    have h2 : T k * 3579545 / 1000000000 ≤ 1000000000 * 3579545 / 1000000000 :=
      Nat.div_le_div_right h1
    norm_num at h2
    omega
  have htscr : ∀ k, read_tsc env k = 2 * T k := by
    intro k
    unfold read_tsc
    rw [Htsc k]
    exact Nat.mod_eq_of_lt (by have := Hcap k; omega)
  have hsPm : startPmOf env = T (alignResult env).idx * 3579545 / 1000000000 := by
    rw [startPmOf_eq]
    exact hpm _
  have hePm : endPmOf env = T (measureResult env).idx * 3579545 / 1000000000 := by
    rw [endPmOf_eq]
    exact hpm _
  have hse : T (alignResult env).idx * 3579545 / 1000000000 ≤
      T (measureResult env).idx * 3579545 / 1000000000 :=
    Nat.div_le_div_right (Nat.mul_le_mul_right _ hT)
  have helt : T (measureResult env).idx * 3579545 / 1000000000 < 4294967296 := by
    have h1 : T (measureResult env).idx * 3579545 ≤ 1000000000 * 3579545 :=
      Nat.mul_le_mul_right _ (Hcap _)
    have h2 : T (measureResult env).idx * 3579545 / 1000000000 ≤
        1000000000 * 3579545 / 1000000000 := Nat.div_le_div_right h1
    norm_num at h2
    omega
  have hD : deltaPmOf env = T (measureResult env).idx * 3579545 / 1000000000 -
      T (alignResult env).idx * 3579545 / 1000000000 := by
    unfold deltaPmOf
    rw [hePm, hsPm]
    exact wrapping_sub32_of_le _ _ hse helt
  have htgt : 178977 ≤ T (measureResult env).idx * 3579545 / 1000000000 -
      T (alignResult env).idx * 3579545 / 1000000000 := by
    have := measureResult_target env h
    rw [target_ticks_eq, hD] at this
    exact this
  have hDd : deltaTimeNsOf env =
      (T (measureResult env).idx * 3579545 / 1000000000 -
        T (alignResult env).idx * 3579545 / 1000000000) * 1000000000 / 3579545 := by
    unfold deltaTimeNsOf DEFAULT_ACPI_TIMER_FREQUENCY
    rw [hD]
    congr 1
    apply Nat.mod_eq_of_lt
    have h1 : T (measureResult env).idx * 3579545 / 1000000000 -
        T (alignResult env).idx * 3579545 / 1000000000 ≤ 4294967295 := by omega
    have := Nat.mul_le_mul_right 1000000000 h1
    omega
  have hdT : deltaTscOf env =
      2 * T (measureResult env).idx - 2 * T (alignResult env).idx := by
    unfold deltaTscOf
    unfold endTscOf startTscOf
    rw [htscr, htscr]
    apply wrapping_sub64_of_le
    · omega
    · have := Hcap (measureResult env).idx
      omega
  have hfreq : freqHzOf env =
      (2 * T (measureResult env).idx - 2 * T (alignResult env).idx) * 1000000000 /
        deltaTimeNsOf env := by
    unfold freqHzOf
    rw [hdT]
    congr 1
    apply Nat.mod_eq_of_lt
    have h1 : 2 * T (measureResult env).idx - 2 * T (alignResult env).idx ≤ 2000000000 := by
      have := Hcap (measureResult env).idx
      omega
    have := Nat.mul_le_mul_right 1000000000 h1
    omega
  rw [hfreq, hDd]
  exact tsc_ratio_bounds (T (alignResult env).idx) (T (measureResult env).idx) hT htgt

/-- Witness for the amended C6: the schedule with 50 ms between reads
realizes the nominal 2 GHz scenario and completes the window, and the
computed frequency lies within the ±1% band. -/
theorem claim6_witness :
    (calibrate_tsc_frequency envGood).measureTimeout = false ∧
    (1980000000 ≤ (calibrate_tsc_frequency envGood).result ∧
      (calibrate_tsc_frequency envGood).result ≤ 2020000000) :=
  ⟨by decide,
    claim6_theorem Tgood envGood (fun _ => rfl) (fun _ => rfl)
      (fun i j hij => Nat.mul_le_mul_left 50000000 (min_le_min hij (le_refl 3)))
      (fun k => by
        have h1 : min k 3 ≤ 3 := Nat.min_le_right k 3
        show 50000000 * min k 3 ≤ 1000000000
        omega)
      (by decide)⟩

lemma envFastPoll_read (i : Nat) (hi : i ≤ 1000280) :
    read_pm_timer envFastPoll i = i * 3579545 / 1000000000 := by
  show i * 3579545 / 1000000000 % 4294967296 = i * 3579545 / 1000000000
  apply Nat.mod_eq_of_lt
  have h1 : i * 3579545 ≤ 1000280 * 3579545 := Nat.mul_le_mul_right _ hi
  have h2 : i * 3579545 / 1000000000 ≤ 1000280 * 3579545 / 1000000000 :=
    Nat.div_le_div_right h1
  norm_num at h2
  omega

lemma envFastPoll_align :
    alignResult envFastPoll = ⟨read_pm_timer envFastPoll 280, 280, false, false⟩ := by
  unfold alignResult
  apply alignLoop_exit envFastPoll (read_pm_timer envFastPoll 0) alignLoopBudget 1 280
  · omega
  · norm_num [alignLoopBudget, MAX_WAIT_CYCLES]
  · intro i h1 h2
    rw [envFastPoll_read i (by omega), envFastPoll_read 0 (by omega)]
    have h3 : i * 3579545 ≤ 279 * 3579545 := Nat.mul_le_mul_right _ (by omega)
    have h4 : i * 3579545 / 1000000000 = 0 := Nat.div_eq_of_lt (by omega)
    rw [h4]
  · rw [envFastPoll_read 280 (by omega), envFastPoll_read 0 (by omega)]
    norm_num

lemma envFastPoll_measure : (measureResult envFastPoll).timeout = true := by
  have hs : startPmOf envFastPoll = 1 := by
    unfold startPmOf
    rw [envFastPoll_align]
    show read_pm_timer envFastPoll 280 = 1
    rw [envFastPoll_read 280 (by omega)]
  have hidx : (alignResult envFastPoll).idx = 280 := by rw [envFastPoll_align]
  unfold measureResult
  rw [hidx, hs]
  rw [measureLoop_all_small envFastPoll 1 measureLoopBudget 281
    (by norm_num [measureLoopBudget, MAX_WAIT_CYCLES]) ?_]
  intro i hi1 hi2
  have hi2' : i ≤ 1000280 := by
    unfold measureLoopBudget MAX_WAIT_CYCLES at hi2
    omega
  rw [envFastPoll_read i hi2']
  have hlow : 1 ≤ i * 3579545 / 1000000000 := by
    have : 281 * 3579545 ≤ i * 3579545 := Nat.mul_le_mul_right _ hi1
    rw [Nat.le_div_iff_mul_le (by norm_num)]
    omega
  have hhigh : i * 3579545 / 1000000000 ≤ 3580 := by
    have h1 : i * 3579545 ≤ 1000280 * 3579545 := Nat.mul_le_mul_right _ hi2'
    have h2 : i * 3579545 / 1000000000 ≤ 1000280 * 3579545 / 1000000000 :=
      Nat.div_le_div_right h1
    norm_num at h2
    omega
  rw [target_ticks_eq, wrapping_sub32_of_le _ 1 hlow (by omega)]
  omega

/-- Claim C6, counterexample to the claim as stated: with both counters
advancing at exactly the claimed rates (reference 3,579,545 Hz, cycle
counter 2,000,000,000 Hz) but sampled on a one-read-per-nanosecond
schedule, the measurement loop exhausts its 1,000,000-iteration budget
long before the 178,977-tick target and the routine returns the fallback
3,579,545, which is not within ±1% of 2,000,000,000. -/
theorem claim6_counterexample :
    (calibrate_tsc_frequency envFastPoll).result = DEFAULT_ACPI_TIMER_FREQUENCY ∧
    ¬ (1980000000 ≤ (calibrate_tsc_frequency envFastPoll).result ∧
       (calibrate_tsc_frequency envFastPoll).result ≤ 2020000000) := by
  rw [calibrate_of_timeout envFastPoll envFastPoll_measure]
  refine ⟨rfl, ?_⟩
  intro hcontra
  have : (1980000000 : Nat) ≤ DEFAULT_ACPI_TIMER_FREQUENCY := hcontra.1
  norm_num [DEFAULT_ACPI_TIMER_FREQUENCY] at this
